import Mathlib

/-!
Verification of the fractional-index generator of this repository
(`src/index.js`: `generateFractionalIndex`, `generateBulkIndexes`,
`generateRelocationIndexes`).

Modelling conventions (shallow embedding):

* Index strings are represented by their numeric values in `ℚ`; the
  JavaScript `Number(...)` parse of a decimal string and the string returned
  by `toFixed` are both reflected by exact rational arithmetic (the
  source computes with IEEE 754 doubles; the spec's invariants are stated
  over the numeric values, and the embedding uses exact decimal rationals).
* `Number.prototype.toFixed(d)` is modelled by `toFixed d : ℚ → ℚ`,
  rounding to the nearest multiple of `10 ^ (-d)`, ties toward `+∞`
  (ECMA-262 picks the larger candidate integer on a tie).
* `Math.random()` is modelled by an explicit stream `draws : ℕ → ℚ`
  together with a cursor `k : ℕ`; every operation returns its result
  together with the new cursor position.  A draw is assumed to lie in
  `[0, 1)` where a theorem needs it.
* The only error in the core (`throw new Error('Invalid range: ...')`) is
  modelled by `none`; all regular returns are `some`-values.
* For `generateRelocationIndexes` the bounds are kept as strings, because
  the source truncates them with `.slice(0, 7)` before parsing; `parseDec`
  models `Number(...)` on plain decimal strings (optional sign, digits,
  optional decimal point, digits).  An output of its even-distribution
  branch is the pair of the 5-decimal position value and the 5-digit
  random suffix, standing for their string concatenation.
-/

namespace FracIndexes

/-- Model of `Number.prototype.toFixed d` (as a numeric value): round `x` to
the nearest multiple of `10 ^ (-d)`, ties toward `+∞`. -/
def toFixed (d : ℕ) (x : ℚ) : ℚ := ((⌊x * 10 ^ d + 1 / 2⌋ : ℤ) : ℚ) / 10 ^ d

/-- `const stepSize = 0.001` from `generateFractionalIndex`. -/
def stepSize : ℚ := 1 / 1000

/-- `const minSafeGap = 1e-10` from `generateFractionalIndex`. -/
def minSafeGap : ℚ := 1 / 10 ^ 10

/-- `const epsilon = 1e-15` from `generateFractionalIndex`. -/
def epsilon : ℚ := 1 / 10 ^ 15

/-- Translation of `generateFractionalIndex(prevIndex, nextIndex)` from
`src/index.js`.  `draws`/`k` model the `Math.random()` source; the returned
`ℕ` is the new cursor.  `none` models the thrown `Invalid range` error. -/
def generateFractionalIndex (prevIndex nextIndex : Option ℚ) (draws : ℕ → ℚ)
    (k : ℕ) : Option ℚ × ℕ :=
  match prevIndex, nextIndex with
  | none, none =>
      -- List is empty
      let baseIndex := stepSize / 2
      let jitter := draws k * (1 / 10 ^ 4)
      (some (toFixed 10 (baseIndex + jitter)), k + 1)
  | none, some nextNum =>
      -- Beginning of List
      let baseIndex := min (stepSize / 2) (nextNum / 2)
      let jitter := draws k * (baseIndex * (1 / 10))
      (some (toFixed 10 (baseIndex + jitter)), k + 1)
  | some prevNum, none =>
      -- End of List
      let baseIndex := prevNum + stepSize
      let jitter := draws k * (1 / 10 ^ 4)
      (some (toFixed 10 (baseIndex + jitter)), k + 1)
  | some prevNum, some nextNum =>
      -- Between Two Items
      let gap := nextNum - prevNum
      if gap ≤ 0 then (none, k)
      else if gap ≤ minSafeGap then
        (some (toFixed 15 (prevNum + gap / 2)), k)
      else
        let midpoint := prevNum + gap / 2
        let maxJitter := gap * (1 / 4)
        let jitter := (draws k - 1 / 2) * maxJitter
        let finalIndex := midpoint + jitter
        if finalIndex ≤ prevNum + epsilon ∨ nextNum - epsilon ≤ finalIndex then
          (some (toFixed 15 midpoint), k + 1)
        else
          (some (toFixed 15 finalIndex), k + 1)

/-- The `for`-loop of `generateBulkIndexes`: starting from `currentPrev`,
generate `c` indexes, each between the previously generated index and the
fixed `nextIndex`.  A thrown error propagates (the partial list is lost). -/
def bulkLoop (nextIndex : Option ℚ) (draws : ℕ → ℚ) :
    ℕ → Option ℚ → ℕ → Option (List ℚ) × ℕ
  | 0, _, k => (some [], k)
  | c + 1, currentPrev, k =>
      match generateFractionalIndex currentPrev nextIndex draws k with
      | (some x, k') =>
          match bulkLoop nextIndex draws c (some x) k' with
          | (some l, k'') => (some (x :: l), k'')
          | (none, k'') => (none, k'')
      | (none, k') => (none, k')

/-- Translation of `generateBulkIndexes(prevIndex, nextIndex, count)` from
`src/index.js` (`count ≤ 0` and `count === 1` are special-cased exactly as
in the source). -/
def generateBulkIndexes (prevIndex nextIndex : Option ℚ) (count : ℕ)
    (draws : ℕ → ℚ) (k : ℕ) : Option (List ℚ) × ℕ :=
  if count = 0 then (some [], k)
  else if count = 1 then
    match generateFractionalIndex prevIndex nextIndex draws k with
    | (some x, k') => (some [x], k')
    | (none, k') => (none, k')
  else bulkLoop nextIndex draws count prevIndex k

/-- The sequential chain as the spec words it (§4.2): the first value is
generated between `prev` and `next`; every subsequent value is generated
between the previously generated value and the same fixed `next`.  Stated
as its own definition so that `generateBulkIndexes` can be proved to
refine it. -/
def specSequentialChain (nextIndex : Option ℚ) (draws : ℕ → ℚ) :
    ℕ → Option ℚ → ℕ → Option (List ℚ) × ℕ
  | 0, _, k => (some [], k)
  | c + 1, prev, k =>
      match generateFractionalIndex prev nextIndex draws k with
      | (some x, k') =>
          match specSequentialChain nextIndex draws c (some x) k' with
          | (some l, k'') => (some (x :: l), k'')
          | (none, k'') => (none, k'')
      | (none, k') => (none, k')

/-- Numeric value of a digit character. -/
def digitVal (c : Char) : ℕ := c.toNat - 48

/-- Accumulate a run of decimal digit characters into a natural number. -/
def natOfDigits (l : List Char) : ℕ := l.foldl (fun a c => a * 10 + digitVal c) 0

/-- Value of an unsigned decimal digit string `⟨int digits⟩.⟨frac digits⟩`. -/
def parseUnsignedChars (l : List Char) : ℚ :=
  (natOfDigits (l.takeWhile (· ≠ '.')) : ℚ) +
    (natOfDigits ((l.dropWhile (· ≠ '.')).drop 1) : ℚ) /
      10 ^ ((l.dropWhile (· ≠ '.')).drop 1).length

/-- Model of JavaScript `Number(s)` on plain decimal strings
(optional `-` sign, integer digits, optional `.`, fraction digits),
the only string shapes the relocation code feeds to `Number`. -/
def parseDecChars (l : List Char) : ℚ :=
  if l.head? = some '-' then -(parseUnsignedChars l.tail) else parseUnsignedChars l

/-- `Number(s)` on a decimal string. -/
def parseDec (s : String) : ℚ := parseDecChars s.data

/-- `s.slice(0, 7)` followed by `Number(...)`, as the relocation code does. -/
def parsePrefix7 (s : String) : ℚ := parseDecChars (s.data.take 7)

/-- `Math.floor(10000 + Math.random() * 90000)` — the 5-digit random
suffix of the even-distribution branch. -/
def randomSuffix (r : ℚ) : ℕ := (⌊10000 + r * 90000⌋ : ℤ).toNat

/-- One output of `generateRelocationIndexes`, read as a string:
`plain v` is a string produced by the core generator with numeric value
`v`; `suffixed pos suf` is the 5-decimal rendering of `pos` concatenated
with the decimal digits of `suf`. -/
inductive RelocIdx where
  | plain (v : ℚ)
  | suffixed (pos : ℚ) (suf : ℕ)
deriving DecidableEq, Repr

/-- The `for`-loop of the even-distribution branch: slot `i` (0-based)
gets position `start + step * (i + 1)` formatted to 5 decimals plus a
fresh random suffix. -/
def relocEvenLoop (start step : ℚ) (draws : ℕ → ℚ) (k : ℕ) :
    ℕ → ℕ → List RelocIdx
  | _, 0 => []
  | i, c + 1 =>
      RelocIdx.suffixed (toFixed 5 (start + step * (i + 1)))
          (randomSuffix (draws (k + i))) ::
        relocEvenLoop start step draws k (i + 1) c

/-- `const start = targetPrevIndex ? Number(targetPrevIndex.slice(0, 7)) : 0`. -/
def relocStart (targetPrevIndex : Option String) : ℚ :=
  match targetPrevIndex with
  | none => 0
  | some s => parsePrefix7 s

/-- `const end = targetNextIndex ? Number(targetNextIndex.slice(0, 7)) : start + count * 0.001`. -/
def relocStop (targetPrevIndex targetNextIndex : Option String) (count : ℕ) : ℚ :=
  match targetNextIndex with
  | none => relocStart targetPrevIndex + count * (1 / 1000)
  | some s => parsePrefix7 s

/-- `const step = (end - start) / (count + 1)`. -/
def relocStep (targetPrevIndex targetNextIndex : Option String) (count : ℕ) : ℚ :=
  (relocStop targetPrevIndex targetNextIndex count - relocStart targetPrevIndex) /
    (count + 1)

/-- Translation of
`generateRelocationIndexes(targetPrevIndex, targetNextIndex, count, distributeEvenly)`
from `src/index.js`.  Bounds are kept as strings because the even branch
parses only their 7-character prefixes (`slice(0, 7)`); absent bounds
default to `0` and `start + count * 0.001` as in the source. -/
def generateRelocationIndexes (targetPrevIndex targetNextIndex : Option String)
    (count : ℕ) (distributeEvenly : Bool) (draws : ℕ → ℚ) (k : ℕ) :
    Option (List RelocIdx) × ℕ :=
  if count = 0 then (some [], k)
  else if count = 1 then
    match generateFractionalIndex (targetPrevIndex.map parseDec)
        (targetNextIndex.map parseDec) draws k with
    | (some x, k') => (some [RelocIdx.plain x], k')
    | (none, k') => (none, k')
  else if distributeEvenly then
    (some (relocEvenLoop (relocStart targetPrevIndex)
      (relocStep targetPrevIndex targetNextIndex count) draws k 0 count), k + count)
  else
    match generateBulkIndexes (targetPrevIndex.map parseDec)
        (targetNextIndex.map parseDec) count draws k with
    | (some l, k') => (some (l.map RelocIdx.plain), k')
    | (none, k') => (none, k')

/-- Gap that guarantees `c` further safe subdivisions: one strictly-inside
insertion needs a gap above `10 ^ (-15)` (the 15-decimal formatting
resolution), and one step keeps at least `3/8` of the gap minus the
rounding error `5 * 10 ^ (-16)`. -/
def safeGap : ℕ → ℚ
  | 0 => 0
  | c + 1 => (8 / 3) * (safeGap c + 5 / 10 ^ 16)

/-! ## Basic facts about `toFixed` -/

theorem toFixed_le (d : ℕ) (x : ℚ) : toFixed d x ≤ x + 1 / (2 * 10 ^ d) := by
  have h10 : (0:ℚ) < 10 ^ d := by positivity
  have h10' : (10:ℚ) ^ d ≠ 0 := ne_of_gt h10
  have hf : ((⌊x * 10 ^ d + 1 / 2⌋ : ℤ) : ℚ) ≤ x * 10 ^ d + 1 / 2 :=
    Int.floor_le _
  have key : (x * 10 ^ d + 1 / 2) / 10 ^ d = x + 1 / (2 * 10 ^ d) := by
    field_simp
    ring
  calc toFixed d x ≤ (x * 10 ^ d + 1 / 2) / 10 ^ d :=
        (div_le_div_right h10).mpr hf
    _ = x + 1 / (2 * 10 ^ d) := key

theorem le_toFixed (d : ℕ) (x : ℚ) : x - 1 / (2 * 10 ^ d) ≤ toFixed d x := by
  have h10 : (0:ℚ) < 10 ^ d := by positivity
  have h10' : (10:ℚ) ^ d ≠ 0 := ne_of_gt h10
  have hf : x * 10 ^ d + 1 / 2 - 1 ≤ ((⌊x * 10 ^ d + 1 / 2⌋ : ℤ) : ℚ) := by
    have := Int.lt_floor_add_one (x * 10 ^ d + 1 / 2)
    linarith
  have key : x - 1 / (2 * 10 ^ d) = (x * 10 ^ d + 1 / 2 - 1) / 10 ^ d := by
    field_simp
    ring
  rw [key]
  exact (div_le_div_right h10).mpr hf

theorem toFixed15_bounds (x : ℚ) :
    x - 5 / 10 ^ 16 ≤ toFixed 15 x ∧ toFixed 15 x ≤ x + 5 / 10 ^ 16 := by
  have h1 := le_toFixed 15 x
  have h2 := toFixed_le 15 x
  norm_num at h1 h2
  norm_num
  exact ⟨h1, h2⟩

theorem toFixed10_bounds (x : ℚ) :
    x - 5 / 10 ^ 11 ≤ toFixed 10 x ∧ toFixed 10 x ≤ x + 5 / 10 ^ 11 := by
  have h1 := le_toFixed 10 x
  have h2 := toFixed_le 10 x
  norm_num at h1 h2
  norm_num
  exact ⟨h1, h2⟩

/-! ## Branch evaluation lemmas for the between-two-items case -/

theorem gfi_invalid (p n : ℚ) (d : ℕ → ℚ) (k : ℕ) (h : n - p ≤ 0) :
    generateFractionalIndex (some p) (some n) d k = (none, k) := by
  simp only [generateFractionalIndex]
  rw [if_pos h]

theorem gfi_tiny (p n : ℚ) (d : ℕ → ℚ) (k : ℕ) (h1 : ¬(n - p ≤ 0))
    (h2 : n - p ≤ minSafeGap) :
    generateFractionalIndex (some p) (some n) d k =
      (some (toFixed 15 (p + (n - p) / 2)), k) := by
  simp only [generateFractionalIndex]
  rw [if_neg h1, if_pos h2]

theorem gfi_guard (p n : ℚ) (d : ℕ → ℚ) (k : ℕ) (h1 : ¬(n - p ≤ 0))
    (h2 : ¬(n - p ≤ minSafeGap))
    (h3 : p + (n - p) / 2 + (d k - 1 / 2) * ((n - p) * (1 / 4)) ≤ p + epsilon ∨
      n - epsilon ≤ p + (n - p) / 2 + (d k - 1 / 2) * ((n - p) * (1 / 4))) :
    generateFractionalIndex (some p) (some n) d k =
      (some (toFixed 15 (p + (n - p) / 2)), k + 1) := by
  simp only [generateFractionalIndex]
  rw [if_neg h1, if_neg h2, if_pos h3]

theorem gfi_jitter (p n : ℚ) (d : ℕ → ℚ) (k : ℕ) (h1 : ¬(n - p ≤ 0))
    (h2 : ¬(n - p ≤ minSafeGap))
    (h3 : ¬(p + (n - p) / 2 + (d k - 1 / 2) * ((n - p) * (1 / 4)) ≤ p + epsilon ∨
      n - epsilon ≤ p + (n - p) / 2 + (d k - 1 / 2) * ((n - p) * (1 / 4)))) :
    generateFractionalIndex (some p) (some n) d k =
      (some (toFixed 15 (p + (n - p) / 2 + (d k - 1 / 2) * ((n - p) * (1 / 4)))),
        k + 1) := by
  simp only [generateFractionalIndex]
  rw [if_neg h1, if_neg h2, if_neg h3]

/-- Core safety step: with a gap strictly above the 15-decimal resolution
and a draw in `[0, 1)`, the between-insertion returns a value strictly
inside the bounds, and the remaining upper gap keeps at least `3/8` of the
old gap minus the rounding error. -/
theorem between_step (p n : ℚ) (d : ℕ → ℚ) (k : ℕ) (h0 : 0 ≤ d k)
    (h1 : d k < 1) (hg : 1 / 10 ^ 15 < n - p) :
    ∃ x k', generateFractionalIndex (some p) (some n) d k = (some x, k') ∧
      p < x ∧ x < n ∧ 3 * (n - p) / 8 - 5 / 10 ^ 16 ≤ n - x := by
  have hgap0 : ¬(n - p ≤ 0) := by
    intro h
    have : (0:ℚ) < 1 / 10 ^ 15 := by norm_num
    linarith
  have hms : minSafeGap = 1 / 10 ^ 10 := rfl
  by_cases htiny : n - p ≤ minSafeGap
  · refine ⟨toFixed 15 (p + (n - p) / 2), k, gfi_tiny p n d k hgap0 htiny, ?_, ?_, ?_⟩ <;>
      [skip; skip; skip] <;>
      · obtain ⟨hb1, hb2⟩ := toFixed15_bounds (p + (n - p) / 2)
        linarith
  · rw [hms] at htiny
    push_neg at htiny
    have hj1 : (d k - 1 / 2) * ((n - p) * (1 / 4)) ≤ (n - p) / 8 := by
      have hnn : (0:ℚ) ≤ (n - p) * (1 / 4) := by nlinarith
      calc (d k - 1 / 2) * ((n - p) * (1 / 4)) ≤ (1 / 2) * ((n - p) * (1 / 4)) :=
            mul_le_mul_of_nonneg_right (by linarith) hnn
        _ = (n - p) / 8 := by ring
    have hj2 : -((n - p) / 8) ≤ (d k - 1 / 2) * ((n - p) * (1 / 4)) := by
      have hnn : (0:ℚ) ≤ (n - p) * (1 / 4) := by nlinarith
      calc -((n - p) / 8) = (-(1 / 2)) * ((n - p) * (1 / 4)) := by ring
        _ ≤ (d k - 1 / 2) * ((n - p) * (1 / 4)) :=
            mul_le_mul_of_nonneg_right (by linarith) hnn
    by_cases hgrd : p + (n - p) / 2 + (d k - 1 / 2) * ((n - p) * (1 / 4)) ≤
        p + epsilon ∨
      n - epsilon ≤ p + (n - p) / 2 + (d k - 1 / 2) * ((n - p) * (1 / 4))
    · refine ⟨toFixed 15 (p + (n - p) / 2), k + 1,
        gfi_guard p n d k hgap0 (by rw [hms]; push_neg; exact htiny) hgrd,
        ?_, ?_, ?_⟩ <;>
        · obtain ⟨hb1, hb2⟩ := toFixed15_bounds (p + (n - p) / 2)
          linarith
    · refine ⟨toFixed 15 (p + (n - p) / 2 + (d k - 1 / 2) * ((n - p) * (1 / 4))),
        k + 1,
        gfi_jitter p n d k hgap0 (by rw [hms]; push_neg; exact htiny) hgrd,
        ?_, ?_, ?_⟩ <;>
        · obtain ⟨hb1, hb2⟩ :=
            toFixed15_bounds (p + (n - p) / 2 + (d k - 1 / 2) * ((n - p) * (1 / 4)))
          linarith

/-! ## Claim C2: `InvalidRange` iff both bounds present and `prev ≥ next` -/

/-- C2: `generate_single(prev, next)` fails with `InvalidRange` if and only
if both bounds are present and `numeric(prev) ≥ numeric(next)`; in every
other case it returns a value. -/
theorem invalid_range_iff (p n : Option ℚ) (d : ℕ → ℚ) (k : ℕ) :
    (generateFractionalIndex p n d k).1 = none ↔
      ∃ a b, p = some a ∧ n = some b ∧ b ≤ a := by
  match p, n with
  | none, none => simp [generateFractionalIndex]
  | none, some b => simp [generateFractionalIndex]
  | some a, none => simp [generateFractionalIndex]
  | some a, some b =>
    constructor
    · intro hnone
      refine ⟨a, b, rfl, rfl, ?_⟩
      by_contra hab
      push_neg at hab
      have h : ¬(b - a ≤ 0) := by linarith
      by_cases htiny : b - a ≤ minSafeGap
      · rw [gfi_tiny a b d k h htiny] at hnone
        simp at hnone
      · by_cases hgrd : a + (b - a) / 2 + (d k - 1 / 2) * ((b - a) * (1 / 4)) ≤
            a + epsilon ∨
          b - epsilon ≤ a + (b - a) / 2 + (d k - 1 / 2) * ((b - a) * (1 / 4))
        · rw [gfi_guard a b d k h htiny hgrd] at hnone
          simp at hnone
        · rw [gfi_jitter a b d k h htiny hgrd] at hnone
          simp at hnone
    · rintro ⟨x, y, hx, hy, hxy⟩
      injection hx with hx
      injection hy with hy
      subst hx
      subst hy
      rw [gfi_invalid a b d k (by linarith)]

/-! ## Claim C4: tiny gaps take the deterministic midpoint -/

/-- C4: whenever `0 < next - prev ≤ 1e-10`, `generate_single` ignores the
random source, leaves the cursor untouched, and returns exactly the
midpoint `prev + (next - prev)/2` formatted to 15 decimals; any two draw
streams and cursors give the same value. -/
theorem tiny_gap_deterministic_midpoint (p n : ℚ) (d d' : ℕ → ℚ) (k k' : ℕ)
    (h1 : 0 < n - p) (h2 : n - p ≤ 1 / 10 ^ 10) :
    generateFractionalIndex (some p) (some n) d k =
        (some (toFixed 15 (p + (n - p) / 2)), k) ∧
      (generateFractionalIndex (some p) (some n) d k).1 =
        (generateFractionalIndex (some p) (some n) d' k').1 := by
  have hms : n - p ≤ minSafeGap := by rw [minSafeGap]; exact h2
  have e1 := gfi_tiny p n d k (by linarith) hms
  have e2 := gfi_tiny p n d' k' (by linarith) hms
  rw [e1, e2]
  exact ⟨rfl, rfl⟩

/-- Witness for C4 at `prev = 0`, `next = 1e-12`, two different draw
streams and cursors. -/
theorem tiny_gap_deterministic_midpoint_witness :
    generateFractionalIndex (some 0) (some (1 / 10 ^ 12)) (fun _ => 0) 0 =
        (some (toFixed 15 (0 + (1 / 10 ^ 12 - 0) / 2)), 0) ∧
      (generateFractionalIndex (some 0) (some (1 / 10 ^ 12)) (fun _ => 0) 0).1 =
        (generateFractionalIndex (some 0) (some (1 / 10 ^ 12)) (fun _ => 1 / 2) 5).1 :=
  tiny_gap_deterministic_midpoint 0 (1 / 10 ^ 12) (fun _ => 0) (fun _ => 1 / 2) 0 5
    (by norm_num) (by norm_num)

/-! ## Claim C1: strict betweenness of `generate_single` -/

/-- Counterexample to C1 as stated: for `prev = 1e-16 < next = 3e-16`
(a perfectly valid numeric pair), the tiny-gap branch rounds the midpoint
`2e-16` to 15 decimals, returning `0`, which is *below* `prev`.  The draw
is irrelevant (the branch ignores it). -/
theorem between_fails_below_resolution :
    (generateFractionalIndex (some ((1:ℚ) / 10 ^ 16)) (some (3 / 10 ^ 16))
        (fun _ => 0) 0).1 = some 0 ∧
      ¬((1:ℚ) / 10 ^ 16 < 0) := by
  constructor
  · rw [gfi_tiny _ _ _ _ (by norm_num) (by rw [minSafeGap]; norm_num)]
    norm_num [toFixed]
  · norm_num

/-- C1 (amended): whenever the gap exceeds the 15-decimal formatting
resolution `1e-15` (in particular for every gap ≥ 1e-12) and the draw lies
in `[0, 1)`, `generate_single(prev, next)` returns a value strictly
between the bounds. -/
theorem between_above_resolution (p n : ℚ) (d : ℕ → ℚ) (k : ℕ)
    (h0 : 0 ≤ d k) (h1 : d k < 1) (hg : 1 / 10 ^ 15 < n - p) :
    ∃ x k', generateFractionalIndex (some p) (some n) d k = (some x, k') ∧
      p < x ∧ x < n := by
  obtain ⟨x, k', he, hpx, hxn, _⟩ := between_step p n d k h0 h1 hg
  exact ⟨x, k', he, hpx, hxn⟩

/-- Witness for the amended C1 at `prev = 0.001`, `next = 0.002`, draw 0. -/
theorem between_above_resolution_witness :
    ∃ x k', generateFractionalIndex (some ((1:ℚ) / 1000)) (some (1 / 500))
        (fun _ => 0) 0 = (some x, k') ∧ (1:ℚ) / 1000 < x ∧ x < 1 / 500 :=
  between_above_resolution (1 / 1000) (1 / 500) (fun _ => 0) 0 (by norm_num)
    (by norm_num) (by norm_num)

/-! ## Claim C6: head insertion stays inside `(0, next)` -/

/-- Counterexample to C6 as stated: for `next = 1e-10 > 0` and draw `0`,
the head branch computes `min(0.0005, 5e-11) = 5e-11` and formatting to 10
decimals rounds it up to exactly `1e-10 = next`, so the result is *not*
strictly below `next`. -/
theorem head_bound_fails_at_tiny_next :
    (generateFractionalIndex none (some ((1:ℚ) / 10 ^ 10)) (fun _ => 0) 0).1 =
        some (1 / 10 ^ 10) ∧
      ¬((1:ℚ) / 10 ^ 10 < 1 / 10 ^ 10) := by
  constructor
  · simp only [generateFractionalIndex]
    rw [show min (stepSize / 2) ((1:ℚ) / 10 ^ 10 / 2) = 1 / (2 * 10 ^ 10) by
      rw [stepSize]; rw [min_eq_right (by norm_num)]; norm_num]
    norm_num [toFixed]
  · norm_num

/-- C6 (amended): for every `next ≥ 2e-10` and draw in `[0, 1)`,
`generate_single(null, next)` returns a value strictly between `0` and
`next`. -/
theorem head_bound_above_threshold (n : ℚ) (d : ℕ → ℚ) (k : ℕ)
    (h0 : 0 ≤ d k) (h1 : d k < 1) (hn : 2 / 10 ^ 10 ≤ n) :
    ∃ x, generateFractionalIndex none (some n) d k = (some x, k + 1) ∧
      0 < x ∧ x < n := by
  have e : generateFractionalIndex none (some n) d k =
      (some (toFixed 10 (min (stepSize / 2) (n / 2) +
        d k * (min (stepSize / 2) (n / 2) * (1 / 10)))), k + 1) := rfl
  set b := min (stepSize / 2) (n / 2) with hbdef
  set v := b + d k * (b * (1 / 10)) with hvdef
  obtain ⟨hlo, hhi⟩ := toFixed10_bounds v
  have hb2 : b ≤ n / 2 := min_le_right _ _
  have hb3 : 1 / 10 ^ 10 ≤ b := by
    refine le_min ?_ ?_
    · rw [stepSize]; norm_num
    · linarith
  have hb0 : 0 < b := lt_of_lt_of_le (by norm_num) hb3
  have hj0 : 0 ≤ d k * (b * (1 / 10)) := by positivity
  have hj1 : d k * (b * (1 / 10)) < b * (1 / 10) := by
    have hpos : 0 < b * (1 / 10) := by positivity
    calc d k * (b * (1 / 10)) < 1 * (b * (1 / 10)) :=
          mul_lt_mul_of_pos_right h1 hpos
      _ = b * (1 / 10) := one_mul _
  refine ⟨toFixed 10 v, e, ?_, ?_⟩
  · have : 1 / 10 ^ 10 ≤ v := by rw [hvdef]; linarith
    linarith
  · rcases le_total (stepSize / 2) (n / 2) with hmin | hmin
    · have hbe : b = stepSize / 2 := min_eq_left hmin
      have hsv : stepSize / 2 = 1 / 2000 := by rw [stepSize]; norm_num
      have hnlarge : 1 / 1000 ≤ n := by
        rw [hbe, hsv] at hb2
        linarith
      rw [hbe, hsv] at hj1
      have : v ≤ 1 / 2000 + 1 / 2000 * (1 / 10) := by
        rw [hvdef, hbe, hsv]
        linarith
      linarith
    · have hbe : b = n / 2 := min_eq_right hmin
      have : v < n / 2 + n / 2 * (1 / 10) := by
        rw [hvdef, hbe]
        rw [hbe] at hj1
        linarith
      linarith

/-- Witness for the amended C6 at `next = 0.01`, draw 1/2. -/
theorem head_bound_above_threshold_witness :
    ∃ x, generateFractionalIndex none (some ((1:ℚ) / 100)) (fun _ => 1 / 2) 0 =
        (some x, 1) ∧ 0 < x ∧ x < 1 / 100 :=
  head_bound_above_threshold (1 / 100) (fun _ => 1 / 2) 0 (by norm_num)
    (by norm_num) (by norm_num)

/-! ## The bulk loop: equations and safety -/

theorem bulkLoop_zero (n : Option ℚ) (d : ℕ → ℚ) (p : Option ℚ) (k : ℕ) :
    bulkLoop n d 0 p k = (some [], k) := rfl

theorem bulkLoop_succ (n : Option ℚ) (d : ℕ → ℚ) (c : ℕ) (p : Option ℚ) (k : ℕ) :
    bulkLoop n d (c + 1) p k =
      match generateFractionalIndex p n d k with
      | (some x, k') =>
          match bulkLoop n d c (some x) k' with
          | (some l, k'') => (some (x :: l), k'')
          | (none, k'') => (none, k'')
      | (none, k') => (none, k') := rfl

/-- `generateBulkIndexes` always agrees with its inner loop run for the full
count: the `count === 1` special case in the source coincides with a
one-iteration loop. -/
theorem bulk_eq_loop (p n : Option ℚ) (c : ℕ) (d : ℕ → ℚ) (k : ℕ) :
    generateBulkIndexes p n c d k = bulkLoop n d c p k := by
  match c with
  | 0 => rfl
  | 1 =>
    simp only [generateBulkIndexes, bulkLoop_succ, bulkLoop_zero]
    norm_num
  | c + 2 =>
    simp only [generateBulkIndexes]
    rw [if_neg (by omega), if_neg (by omega)]

theorem safeGap_nonneg (c : ℕ) : 0 ≤ safeGap c := by
  induction c with
  | zero => simp [safeGap]
  | succ c ih =>
    rw [safeGap]
    nlinarith

theorem safeGap_closed (c : ℕ) : safeGap c = ((8 / 3) ^ c * 8 - 8) / 10 ^ 16 := by
  induction c with
  | zero => norm_num [safeGap]
  | succ c ih =>
    rw [safeGap, ih]
    rw [pow_succ]
    ring

theorem safeGap_le_pow4 (c : ℕ) : safeGap c ≤ 4 ^ c * (1 / 10 ^ 15) := by
  induction c with
  | zero => norm_num [safeGap]
  | succ c ih =>
    rw [safeGap, show (4:ℚ) ^ (c + 1) = 4 ^ c * 4 from pow_succ 4 c]
    have h1 : (1:ℚ) ≤ 4 ^ c := by
      exact_mod_cast Nat.one_le_pow c 4 (by norm_num)
    linarith

/-- Safety of the sequential loop: a gap of at least `safeGap c` supports
`c` chained insertions, every produced value strictly between the current
lower value and the fixed `next`. -/
theorem bulkLoop_safe (c : ℕ) : ∀ (p n : ℚ) (d : ℕ → ℚ) (k : ℕ),
    (∀ j, 0 ≤ d j ∧ d j < 1) → safeGap c ≤ n - p →
    ∃ l k', bulkLoop (some n) d c (some p) k = (some l, k') ∧
      l.length = c ∧ List.Chain' (· < ·) (p :: l) ∧ ∀ x ∈ l, p < x ∧ x < n := by
  induction c with
  | zero =>
    intro p n d k _ _
    exact ⟨[], k, rfl, rfl, List.chain'_singleton p, by simp⟩
  | succ c ih =>
    intro p n d k hd hg
    have hsg : 0 ≤ safeGap c := safeGap_nonneg c
    have hrec : safeGap (c + 1) = (8 / 3) * (safeGap c + 5 / 10 ^ 16) := rfl
    rw [hrec] at hg
    have hgap : 1 / 10 ^ 15 < n - p := by nlinarith
    obtain ⟨x, k', he, hpx, hxn, hrem⟩ :=
      between_step p n d k (hd k).1 (hd k).2 hgap
    have hg' : safeGap c ≤ n - x := by nlinarith
    obtain ⟨l, k'', he2, hlen, hchain, hmem⟩ := ih x n d k' hd hg'
    refine ⟨x :: l, k'', ?_, by simp [hlen], ?_, ?_⟩
    · rw [bulkLoop_succ, he]
      dsimp only
      rw [he2]
    · exact List.chain'_cons.mpr ⟨hpx, hchain⟩
    · rintro y hy
      rcases List.mem_cons.mp hy with rfl | hyl
      · exact ⟨hpx, hxn⟩
      · exact ⟨lt_trans hpx (hmem y hyl).1, (hmem y hyl).2⟩

/-! ## Claim C3: bulk generation between valid bounds -/

/-- Counterexample to C3 as stated: `prev = 0 < next = 1e-15` is a valid
pair, but `generate_bulk(0, 1e-15, 2)` raises `InvalidRange`: the first
chained value rounds up to exactly `next`, so the second call sees a
non-positive gap and throws — no sequence of length 2 is returned. -/
theorem bulk_fails_below_resolution :
    (generateBulkIndexes (some 0) (some ((1:ℚ) / 10 ^ 15)) 2 (fun _ => 0) 0).1 =
        none ∧
      (0:ℚ) < 1 / 10 ^ 15 := by
  have s1 : generateFractionalIndex (some 0) (some ((1:ℚ) / 10 ^ 15))
      (fun _ => 0) 0 = (some (1 / 10 ^ 15), 0) := by
    rw [gfi_tiny _ _ _ _ (by norm_num) (by rw [minSafeGap]; norm_num)]
    norm_num [toFixed]
  have s2 : generateFractionalIndex (some ((1:ℚ) / 10 ^ 15))
      (some ((1:ℚ) / 10 ^ 15)) (fun _ => 0) 0 = (none, 0) :=
    gfi_invalid _ _ _ _ (by norm_num)
  constructor
  · rw [bulk_eq_loop, show (2:ℕ) = 1 + 1 from rfl, bulkLoop_succ, s1]
    dsimp only
    rw [show (1:ℕ) = 0 + 1 from rfl, bulkLoop_succ, s2]
  · norm_num

/-- C3 (amended): for every `count ≥ 0` and bounds whose gap is at least
`4^count * 1e-15`, `generate_bulk` returns exactly `count` values, strictly
increasing, all strictly between `prev` and `next` (draws in `[0, 1)`). -/
theorem bulk_increasing_of_wide_gap (p n : ℚ) (count : ℕ) (d : ℕ → ℚ) (k : ℕ)
    (hd : ∀ j, 0 ≤ d j ∧ d j < 1) (hg : 4 ^ count * (1 / 10 ^ 15) ≤ n - p) :
    ∃ l k', generateBulkIndexes (some p) (some n) count d k = (some l, k') ∧
      l.length = count ∧ List.Chain' (· < ·) (p :: l) ∧
      ∀ x ∈ l, p < x ∧ x < n := by
  rw [bulk_eq_loop]
  exact bulkLoop_safe count p n d k hd ((safeGap_le_pow4 count).trans hg)

/-- Witness for the amended C3: three values between `0` and `1`. -/
theorem bulk_increasing_of_wide_gap_witness :
    ∃ l k', generateBulkIndexes (some 0) (some 1) 3 (fun _ => 0) 0 =
        (some l, k') ∧ l.length = 3 ∧ List.Chain' (· < ·) ((0:ℚ) :: l) ∧
      ∀ x ∈ l, (0:ℚ) < x ∧ x < 1 :=
  bulk_increasing_of_wide_gap 0 1 3 (fun _ => 0) 0
    (fun _ => ⟨le_refl 0, by norm_num⟩) (by norm_num)

/-! ## Claim C5: repeated subdivision from 0.001 / 0.002 -/

/-- C5 (amended): starting from `prev = 0.001`, `next = 0.002`, the first
28 chained calls of `generate_single` are guaranteed to succeed and to
return values strictly between the current `prev` and the fixed original
`next`, for every sequence of draws in `[0, 1)`. -/
theorem repeated_subdivision_first28 (d : ℕ → ℚ) (hd : ∀ j, 0 ≤ d j ∧ d j < 1) :
    ∃ l k', bulkLoop (some (1 / 500)) d 28 (some (1 / 1000)) 0 = (some l, k') ∧
      l.length = 28 ∧ List.Chain' (· < ·) ((1:ℚ) / 1000 :: l) ∧
      ∀ x ∈ l, (1:ℚ) / 1000 < x ∧ x < 1 / 500 := by
  refine bulkLoop_safe 28 (1 / 1000) (1 / 500) d 0 hd ?_
  rw [safeGap_closed]
  norm_num

/-- Witness for the amended C5 with the constant draw stream 1/4. -/
theorem repeated_subdivision_first28_witness :
    ∃ l k', bulkLoop (some (1 / 500)) (fun _ => 1 / 4) 28 (some (1 / 1000)) 0 =
        (some l, k') ∧ l.length = 28 ∧
      List.Chain' (· < ·) ((1:ℚ) / 1000 :: l) ∧
      ∀ x ∈ l, (1:ℚ) / 1000 < x ∧ x < 1 / 500 :=
  repeated_subdivision_first28 (fun _ => 1 / 4)
    (fun _ => ⟨by norm_num, by norm_num⟩)

/-! ## Claim C7: bulk refines the sequential chain of the spec -/

theorem specSequentialChain_zero (n : Option ℚ) (d : ℕ → ℚ) (p : Option ℚ)
    (k : ℕ) : specSequentialChain n d 0 p k = (some [], k) := rfl

theorem specSequentialChain_succ (n : Option ℚ) (d : ℕ → ℚ) (c : ℕ)
    (p : Option ℚ) (k : ℕ) :
    specSequentialChain n d (c + 1) p k =
      match generateFractionalIndex p n d k with
      | (some x, k') =>
          match specSequentialChain n d c (some x) k' with
          | (some l, k'') => (some (x :: l), k'')
          | (none, k'') => (none, k'')
      | (none, k') => (none, k') := rfl

theorem loop_eq_chain (n : Option ℚ) (d : ℕ → ℚ) (c : ℕ) :
    ∀ (p : Option ℚ) (k : ℕ), bulkLoop n d c p k = specSequentialChain n d c p k := by
  induction c with
  | zero => intro p k; rfl
  | succ c ih =>
    intro p k
    rw [bulkLoop_succ, specSequentialChain_succ]
    simp only [ih]

/-- C7: `generate_bulk` is exactly the pure sequential chain of
`generate_single` calls described by the spec — `count = 0` gives `[]`,
`count = 1` a single call, and each later value is generated between the
previous value and the fixed `next`; no rebalancing strategy is involved. -/
theorem bulk_refines_sequential_chain (p n : Option ℚ) (c : ℕ) (d : ℕ → ℚ)
    (k : ℕ) : generateBulkIndexes p n c d k = specSequentialChain n d c p k :=
  (bulk_eq_loop p n c d k).trans (loop_eq_chain n d c p k)

/-! ## Claim C10: determinism given the draw sequence -/

theorem gfi_congr (p n : Option ℚ) (d₁ d₂ : ℕ → ℚ) (k : ℕ) (h : d₁ k = d₂ k) :
    generateFractionalIndex p n d₁ k = generateFractionalIndex p n d₂ k := by
  cases p <;> cases n <;> simp only [generateFractionalIndex, h]

theorem gfi_cursor (p n : Option ℚ) (d : ℕ → ℚ) (k : ℕ) :
    (generateFractionalIndex p n d k).2 = k ∨
      (generateFractionalIndex p n d k).2 = k + 1 := by
  match p, n with
  | none, none => right; rfl
  | none, some b => right; rfl
  | some a, none => right; rfl
  | some a, some b =>
    simp only [generateFractionalIndex]
    split_ifs <;> simp

theorem bulkLoop_congr (n : Option ℚ) (c : ℕ) :
    ∀ (p : Option ℚ) (k : ℕ) (d₁ d₂ : ℕ → ℚ),
      (∀ j, j < k + c → d₁ j = d₂ j) →
      bulkLoop n d₁ c p k = bulkLoop n d₂ c p k := by
  induction c with
  | zero => intro p k d₁ d₂ _; rfl
  | succ c ih =>
    intro p k d₁ d₂ h
    have h0 : d₁ k = d₂ k := h k (by omega)
    rw [bulkLoop_succ, bulkLoop_succ, gfi_congr p n d₁ d₂ k h0]
    rcases hgf : generateFractionalIndex p n d₂ k with ⟨o, k'⟩
    have hk' : k' = k ∨ k' = k + 1 := by
      have hcur := gfi_cursor p n d₂ k
      rw [hgf] at hcur
      exact hcur
    cases o with
    | none => rfl
    | some x =>
      dsimp only
      rw [ih (some x) k' d₁ d₂ (fun j hj => h j (by omega))]

theorem bulk_congr (p n : Option ℚ) (c : ℕ) (d₁ d₂ : ℕ → ℚ) (k : ℕ)
    (h : ∀ j, j < k + c + 1 → d₁ j = d₂ j) :
    generateBulkIndexes p n c d₁ k = generateBulkIndexes p n c d₂ k := by
  rw [bulk_eq_loop, bulk_eq_loop]
  exact bulkLoop_congr n c p k d₁ d₂ (fun j hj => h j (by omega))

theorem relocEvenLoop_zero (s t : ℚ) (d : ℕ → ℚ) (k i : ℕ) :
    relocEvenLoop s t d k i 0 = [] := rfl

theorem relocEvenLoop_succ (s t : ℚ) (d : ℕ → ℚ) (k i c : ℕ) :
    relocEvenLoop s t d k i (c + 1) =
      RelocIdx.suffixed (toFixed 5 (s + t * (i + 1)))
          (randomSuffix (d (k + i))) ::
        relocEvenLoop s t d k (i + 1) c := rfl

theorem relocEvenLoop_congr (s t : ℚ) (k : ℕ) (c : ℕ) :
    ∀ (i : ℕ) (d₁ d₂ : ℕ → ℚ), (∀ j, j < k + i + c → d₁ j = d₂ j) →
      relocEvenLoop s t d₁ k i c = relocEvenLoop s t d₂ k i c := by
  induction c with
  | zero => intro i d₁ d₂ _; rfl
  | succ c ih =>
    intro i d₁ d₂ h
    rw [relocEvenLoop_succ, relocEvenLoop_succ, h (k + i) (by omega),
      ih (i + 1) d₁ d₂ (fun j hj => h j (by omega))]

theorem reloc_congr (tp tn : Option String) (c : ℕ) (dE : Bool)
    (d₁ d₂ : ℕ → ℚ) (k : ℕ) (h : ∀ j, j < k + c + 1 → d₁ j = d₂ j) :
    generateRelocationIndexes tp tn c dE d₁ k =
      generateRelocationIndexes tp tn c dE d₂ k := by
  by_cases hc0 : c = 0
  · subst hc0; rfl
  · by_cases hc1 : c = 1
    · subst hc1
      simp only [generateRelocationIndexes]
      rw [gfi_congr (tp.map parseDec) (tn.map parseDec) d₁ d₂ k (h k (by omega)),
        relocEvenLoop_congr (relocStart tp) (relocStep tp tn 1) k 1 0 d₁ d₂
          (fun j hj => h j (by omega)),
        bulk_congr (tp.map parseDec) (tn.map parseDec) 1 d₁ d₂ k h]
    · simp only [generateRelocationIndexes]
      rw [gfi_congr (tp.map parseDec) (tn.map parseDec) d₁ d₂ k (h k (by omega)),
        relocEvenLoop_congr (relocStart tp) (relocStep tp tn c) k c 0 d₁ d₂
          (fun j hj => h j (by omega)),
        bulk_congr (tp.map parseDec) (tn.map parseDec) c d₁ d₂ k h]

/-- C10: every operation is a deterministic pure function of its arguments
and the draws it consumes: two runs whose draw streams agree on the
consumed positions return identical results (values and cursor), and the
embedding carries no other state. -/
theorem operations_deterministic (p n : Option ℚ) (tp tn : Option String)
    (c : ℕ) (dE : Bool) (d₁ d₂ : ℕ → ℚ) (k : ℕ)
    (h : ∀ j, j < k + c + 1 → d₁ j = d₂ j) :
    generateFractionalIndex p n d₁ k = generateFractionalIndex p n d₂ k ∧
      generateBulkIndexes p n c d₁ k = generateBulkIndexes p n c d₂ k ∧
      generateRelocationIndexes tp tn c dE d₁ k =
        generateRelocationIndexes tp tn c dE d₂ k :=
  ⟨gfi_congr p n d₁ d₂ k (h k (by omega)), bulk_congr p n c d₁ d₂ k h,
    reloc_congr tp tn c dE d₁ d₂ k h⟩

/-- Witness for C10 at concrete arguments and draw streams agreeing on the
consumed prefix. -/
theorem operations_deterministic_witness :
    generateFractionalIndex (some ((1:ℚ) / 1000)) (some (1 / 500))
        (fun _ => 1 / 3) 0 =
      generateFractionalIndex (some ((1:ℚ) / 1000)) (some (1 / 500))
        (fun j => if j < 3 then 1 / 3 else 0) 0 ∧
      generateBulkIndexes (some ((1:ℚ) / 1000)) (some (1 / 500)) 2
          (fun _ => 1 / 3) 0 =
        generateBulkIndexes (some ((1:ℚ) / 1000)) (some (1 / 500)) 2
          (fun j => if j < 3 then 1 / 3 else 0) 0 ∧
      generateRelocationIndexes (some "0.001") (some "0.002") 2 true
          (fun _ => 1 / 3) 0 =
        generateRelocationIndexes (some "0.001") (some "0.002") 2 true
          (fun j => if j < 3 then 1 / 3 else 0) 0 :=
  operations_deterministic (some (1 / 1000)) (some (1 / 500)) (some "0.001")
    (some "0.002") 2 true (fun _ => 1 / 3) (fun j => if j < 3 then 1 / 3 else 0)
    0 (fun j hj => by simp only [if_pos (show j < 3 by omega)])

/-! ## Relocation: evaluation and claims C8, C9 -/

theorem reloc_even_eval (tp tn : Option String) (c : ℕ) (d : ℕ → ℚ) (k : ℕ)
    (h2 : 2 ≤ c) :
    generateRelocationIndexes tp tn c true d k =
      (some (relocEvenLoop (relocStart tp) (relocStep tp tn c) d k 0 c),
        k + c) := by
  simp only [generateRelocationIndexes]
  rw [if_neg (by omega), if_neg (by omega)]
  simp

theorem relocEvenLoop_length (s t : ℚ) (d : ℕ → ℚ) (k : ℕ) :
    ∀ (c i : ℕ), (relocEvenLoop s t d k i c).length = c := by
  intro c
  induction c with
  | zero => intro i; rfl
  | succ c ih =>
    intro i
    rw [relocEvenLoop_succ]
    simp [ih (i + 1)]

theorem relocEvenLoop_eq_map (s t : ℚ) (d : ℕ → ℚ) (k : ℕ) :
    ∀ (c i : ℕ), relocEvenLoop s t d k i c =
      (List.range' i c).map (fun (j : ℕ) => RelocIdx.suffixed
        (toFixed 5 (s + t * ((j : ℚ) + 1))) (randomSuffix (d (k + j)))) := by
  intro c
  induction c with
  | zero => intro i; rfl
  | succ c ih =>
    intro i
    rw [relocEvenLoop_succ, ih (i + 1), List.range'_succ, List.map_cons]

theorem randomSuffix_bounds (r : ℚ) (h0 : 0 ≤ r) (h1 : r < 1) :
    10000 ≤ randomSuffix r ∧ randomSuffix r ≤ 99999 := by
  rw [randomSuffix]
  have hf1 : (10000:ℤ) ≤ ⌊(10000:ℚ) + r * 90000⌋ := by
    apply Int.le_floor.mpr
    push_cast
    nlinarith
  have hf2 : ⌊(10000:ℚ) + r * 90000⌋ < 100000 := by
    apply Int.floor_lt.mpr
    push_cast
    nlinarith
  constructor <;> omega

theorem parseDecChars_0001 : parseDecChars ['0', '.', '0', '0', '1'] = 1 / 1000 := by
  rw [parseDecChars, if_neg (by decide), parseUnsignedChars,
    show (['0', '.', '0', '0', '1'].takeWhile (· ≠ '.')) = ['0'] from by decide,
    show ((['0', '.', '0', '0', '1'].dropWhile (· ≠ '.')).drop 1) = ['0', '0', '1']
      from by decide,
    show natOfDigits ['0'] = 0 from by decide,
    show natOfDigits ['0', '0', '1'] = 1 from by decide]
  norm_num

theorem parseDecChars_0002 : parseDecChars ['0', '.', '0', '0', '2'] = 1 / 500 := by
  rw [parseDecChars, if_neg (by decide), parseUnsignedChars,
    show (['0', '.', '0', '0', '2'].takeWhile (· ≠ '.')) = ['0'] from by decide,
    show ((['0', '.', '0', '0', '2'].dropWhile (· ≠ '.')).drop 1) = ['0', '0', '2']
      from by decide,
    show natOfDigits ['0'] = 0 from by decide,
    show natOfDigits ['0', '0', '2'] = 2 from by decide]
  norm_num

theorem parseDecChars_0003 : parseDecChars ['0', '.', '0', '0', '3'] = 3 / 1000 := by
  rw [parseDecChars, if_neg (by decide), parseUnsignedChars,
    show (['0', '.', '0', '0', '3'].takeWhile (· ≠ '.')) = ['0'] from by decide,
    show ((['0', '.', '0', '0', '3'].dropWhile (· ≠ '.')).drop 1) = ['0', '0', '3']
      from by decide,
    show natOfDigits ['0'] = 0 from by decide,
    show natOfDigits ['0', '0', '3'] = 3 from by decide]
  norm_num

theorem parseDec_0001 : parseDec "0.001" = 1 / 1000 := by
  rw [parseDec, show "0.001".data = ['0', '.', '0', '0', '1'] from rfl,
    parseDecChars_0001]

theorem parseDec_0002 : parseDec "0.002" = 1 / 500 := by
  rw [parseDec, show "0.002".data = ['0', '.', '0', '0', '2'] from rfl,
    parseDecChars_0002]

theorem parsePrefix7_0001 : parsePrefix7 "0.001" = 1 / 1000 := by
  rw [parsePrefix7, show "0.001".data.take 7 = ['0', '.', '0', '0', '1'] from rfl,
    parseDecChars_0001]

theorem parsePrefix7_0003 : parsePrefix7 "0.003" = 3 / 1000 := by
  rw [parsePrefix7, show "0.003".data.take 7 = ['0', '.', '0', '0', '3'] from rfl,
    parseDecChars_0003]

/-! ## Claim C8: entries of the even-distribution branch -/

/-- Counterexample to C8 as stated: `Math.floor(10000 + r * 90000)` with
`r = 0.999999 ∈ [0, 1)` equals `99999`, so the suffix value `99999` *does*
occur — the relocation call below returns both entries with suffix exactly
`99999`, contradicting the claimed half-open range `[10000, 99999)`. -/
theorem reloc_suffix_hits_99999 :
    (generateRelocationIndexes (some "0.001") (some "0.003") 2 true
        (fun _ => 999999 / 1000000) 0).1 =
      some [RelocIdx.suffixed (167 / 100000) 99999,
        RelocIdx.suffixed (233 / 100000) 99999] ∧
      ¬(99999 < 99999) := by
  have hstep : relocStep (some "0.001") (some "0.003") 2 = 1 / 1500 := by
    rw [relocStep,
      show relocStop (some "0.001") (some "0.003") 2 = 3 / 1000 from
        parsePrefix7_0003,
      show relocStart (some "0.001") = 1 / 1000 from parsePrefix7_0001]
    norm_num
  constructor
  · rw [reloc_even_eval (some "0.001") (some "0.003") 2 _ 0 (by norm_num)]
    rw [show (2:ℕ) = 1 + 1 from rfl, relocEvenLoop_succ,
      show (1:ℕ) = 0 + 1 from rfl, relocEvenLoop_succ, relocEvenLoop_zero,
      hstep, show relocStart (some "0.001") = 1 / 1000 from parsePrefix7_0001]
    simp only [RelocIdx.suffixed.injEq, List.cons.injEq, Option.some.injEq,
      and_true]
    refine ⟨⟨?_, ?_⟩, ?_, ?_⟩
    · rw [toFixed]
      norm_num
    · rw [randomSuffix]
      norm_num
      rfl
    · rw [toFixed]
      push_cast
      norm_num
    · rw [randomSuffix]
      norm_num
      rfl
  · norm_num

/-- C8 (amended): with `distributeEvenly = true` and `count ≥ 2`, the `i`-th
produced string is `start + step * (i+1)` formatted to 5 decimals
concatenated with the 5-digit suffix `⌊10000 + r_i * 90000⌋`, which for a
draw in `[0, 1)` is a uniform integer of the closed range
`[10000, 99999]` (the value `99999` can occur). -/
theorem reloc_even_entries (tp tn : Option String) (c : ℕ) (d : ℕ → ℚ)
    (k : ℕ) (hc : 2 ≤ c) (hd : ∀ j, 0 ≤ d j ∧ d j < 1) :
    ∃ l, generateRelocationIndexes tp tn c true d k = (some l, k + c) ∧
      l = (List.range' 0 c).map (fun (j : ℕ) => RelocIdx.suffixed
        (toFixed 5 (relocStart tp + relocStep tp tn c * ((j : ℚ) + 1)))
        (randomSuffix (d (k + j)))) ∧
      ∀ i, i < c →
        10000 ≤ randomSuffix (d (k + i)) ∧ randomSuffix (d (k + i)) ≤ 99999 := by
  refine ⟨_, reloc_even_eval tp tn c d k hc, relocEvenLoop_eq_map _ _ d k c 0,
    fun i _ => randomSuffix_bounds (d (k + i)) (hd (k + i)).1 (hd (k + i)).2⟩

/-- Witness for the amended C8 at concrete bounds, count 2, constant
draw 1/2. -/
theorem reloc_even_entries_witness :
    ∃ l, generateRelocationIndexes (some "0.001") (some "0.003") 2 true
        (fun _ => 1 / 2) 0 = (some l, 0 + 2) ∧
      l = (List.range' 0 2).map (fun (j : ℕ) => RelocIdx.suffixed
        (toFixed 5 (relocStart (some "0.001") +
          relocStep (some "0.001") (some "0.003") 2 * ((j : ℚ) + 1)))
        (randomSuffix ((fun _ => (1:ℚ) / 2) (0 + j)))) ∧
      ∀ i, i < 2 →
        10000 ≤ randomSuffix ((fun _ => (1:ℚ) / 2) (0 + i)) ∧
          randomSuffix ((fun _ => (1:ℚ) / 2) (0 + i)) ≤ 99999 :=
  reloc_even_entries (some "0.001") (some "0.003") 2 (fun _ => 1 / 2) 0
    (by norm_num) (fun _ => ⟨by norm_num, by norm_num⟩)

/-! ## Claim C9: relocation never validates its bounds -/

/-- C9: with both bounds present, `count ≥ 2` and `distributeEvenly = true`,
`generateRelocationIndexes` raises nothing even when
`numeric(prev) ≥ numeric(next)` (where `generate_single` raises
`InvalidRange`): it returns exactly `count` entries computed from the
truncated 7-character prefixes of the bounds. -/
theorem reloc_total_on_inverted_bounds (s₁ s₂ : String) (c : ℕ) (d : ℕ → ℚ)
    (k : ℕ) (hc : 2 ≤ c) (hba : parseDec s₂ ≤ parseDec s₁) :
    ∃ l, generateRelocationIndexes (some s₁) (some s₂) c true d k =
        (some l, k + c) ∧
      l.length = c ∧
      l = relocEvenLoop (parsePrefix7 s₁)
        ((parsePrefix7 s₂ - parsePrefix7 s₁) / (c + 1)) d k 0 c ∧
      (generateFractionalIndex (some (parseDec s₁)) (some (parseDec s₂)) d k).1 =
        none := by
  refine ⟨_, reloc_even_eval (some s₁) (some s₂) c d k hc,
    relocEvenLoop_length _ _ d k c 0, rfl, ?_⟩
  rw [gfi_invalid (parseDec s₁) (parseDec s₂) d k (by linarith)]

/-- Witness for C9: inverted bounds `0.002 ≥ 0.001`, count 2. -/
theorem reloc_total_on_inverted_bounds_witness :
    ∃ l, generateRelocationIndexes (some "0.002") (some "0.001") 2 true
        (fun _ => 0) 0 = (some l, 0 + 2) ∧
      l.length = 2 ∧
      l = relocEvenLoop (parsePrefix7 "0.002")
        ((parsePrefix7 "0.001" - parsePrefix7 "0.002") / (2 + 1))
        (fun _ => 0) 0 0 2 ∧
      (generateFractionalIndex (some (parseDec "0.002"))
        (some (parseDec "0.001")) (fun _ => 0) 0).1 = none :=
  reloc_total_on_inverted_bounds "0.002" "0.001" 2 (fun _ => 0) 0 (by norm_num)
    (by rw [parseDec_0001, parseDec_0002]; norm_num)

/-- Counterexample to C5 as stated: under the perfectly legal constant draw
`1/2` (pure midpoints, zero jitter), iterating
`prev := generate_single(prev, 0.002)` from `prev = 0.001` collapses the
gap to zero within 41 calls, and the iteration of 50 calls raises
`InvalidRange` — not every one of the 50 calls returns a value. -/
theorem repeated_subdivision_50_fails :
    (bulkLoop (some ((1:ℚ) / 500)) (fun _ => 1 / 2) 50 (some (1 / 1000)) 0).1 =
        none ∧
      (1:ℚ) / 1000 < 1 / 500 := by
  have s0 : generateFractionalIndex (some (1 / 1000 : ℚ)) (some (1 / 500))
      (fun _ => 1 / 2) 0 = (some (3 / 2000 : ℚ), 1) := by
    rw [gfi_jitter _ _ _ _ (by norm_num) (by rw [minSafeGap]; norm_num)
      (by rw [epsilon]; norm_num)]
    norm_num [toFixed]
  have s1 : generateFractionalIndex (some (3 / 2000 : ℚ)) (some (1 / 500))
      (fun _ => 1 / 2) 1 = (some (7 / 4000 : ℚ), 2) := by
    rw [gfi_jitter _ _ _ _ (by norm_num) (by rw [minSafeGap]; norm_num)
      (by rw [epsilon]; norm_num)]
    norm_num [toFixed]
  have s2 : generateFractionalIndex (some (7 / 4000 : ℚ)) (some (1 / 500))
      (fun _ => 1 / 2) 2 = (some (3 / 1600 : ℚ), 3) := by
    rw [gfi_jitter _ _ _ _ (by norm_num) (by rw [minSafeGap]; norm_num)
      (by rw [epsilon]; norm_num)]
    norm_num [toFixed]
  have s3 : generateFractionalIndex (some (3 / 1600 : ℚ)) (some (1 / 500))
      (fun _ => 1 / 2) 3 = (some (31 / 16000 : ℚ), 4) := by
    rw [gfi_jitter _ _ _ _ (by norm_num) (by rw [minSafeGap]; norm_num)
      (by rw [epsilon]; norm_num)]
    norm_num [toFixed]
  have s4 : generateFractionalIndex (some (31 / 16000 : ℚ)) (some (1 / 500))
      (fun _ => 1 / 2) 4 = (some (63 / 32000 : ℚ), 5) := by
    rw [gfi_jitter _ _ _ _ (by norm_num) (by rw [minSafeGap]; norm_num)
      (by rw [epsilon]; norm_num)]
    norm_num [toFixed]
  have s5 : generateFractionalIndex (some (63 / 32000 : ℚ)) (some (1 / 500))
      (fun _ => 1 / 2) 5 = (some (127 / 64000 : ℚ), 6) := by
    rw [gfi_jitter _ _ _ _ (by norm_num) (by rw [minSafeGap]; norm_num)
      (by rw [epsilon]; norm_num)]
    norm_num [toFixed]
  have s6 : generateFractionalIndex (some (127 / 64000 : ℚ)) (some (1 / 500))
      (fun _ => 1 / 2) 6 = (some (51 / 25600 : ℚ), 7) := by
    rw [gfi_jitter _ _ _ _ (by norm_num) (by rw [minSafeGap]; norm_num)
      (by rw [epsilon]; norm_num)]
    norm_num [toFixed]
  have s7 : generateFractionalIndex (some (51 / 25600 : ℚ)) (some (1 / 500))
      (fun _ => 1 / 2) 7 = (some (511 / 256000 : ℚ), 8) := by
    rw [gfi_jitter _ _ _ _ (by norm_num) (by rw [minSafeGap]; norm_num)
      (by rw [epsilon]; norm_num)]
    norm_num [toFixed]
  have s8 : generateFractionalIndex (some (511 / 256000 : ℚ)) (some (1 / 500))
      (fun _ => 1 / 2) 8 = (some (1023 / 512000 : ℚ), 9) := by
    rw [gfi_jitter _ _ _ _ (by norm_num) (by rw [minSafeGap]; norm_num)
      (by rw [epsilon]; norm_num)]
    norm_num [toFixed]
  have s9 : generateFractionalIndex (some (1023 / 512000 : ℚ)) (some (1 / 500))
      (fun _ => 1 / 2) 9 = (some (2047 / 1024000 : ℚ), 10) := by
    rw [gfi_jitter _ _ _ _ (by norm_num) (by rw [minSafeGap]; norm_num)
      (by rw [epsilon]; norm_num)]
    norm_num [toFixed]
  have s10 : generateFractionalIndex (some (2047 / 1024000 : ℚ)) (some (1 / 500))
      (fun _ => 1 / 2) 10 = (some (819 / 409600 : ℚ), 11) := by
    rw [gfi_jitter _ _ _ _ (by norm_num) (by rw [minSafeGap]; norm_num)
      (by rw [epsilon]; norm_num)]
    norm_num [toFixed]
  have s11 : generateFractionalIndex (some (819 / 409600 : ℚ)) (some (1 / 500))
      (fun _ => 1 / 2) 11 = (some (8191 / 4096000 : ℚ), 12) := by
    rw [gfi_jitter _ _ _ _ (by norm_num) (by rw [minSafeGap]; norm_num)
      (by rw [epsilon]; norm_num)]
    norm_num [toFixed]
  have s12 : generateFractionalIndex (some (8191 / 4096000 : ℚ)) (some (1 / 500))
      (fun _ => 1 / 2) 12 = (some (249984741211 / 125000000000000 : ℚ), 13) := by
    rw [gfi_jitter _ _ _ _ (by norm_num) (by rw [minSafeGap]; norm_num)
      (by rw [epsilon]; norm_num)]
    norm_num [toFixed]
  have s13 : generateFractionalIndex (some (249984741211 / 125000000000000 : ℚ)) (some (1 / 500))
      (fun _ => 1 / 2) 13 = (some (499984741211 / 250000000000000 : ℚ), 14) := by
    rw [gfi_jitter _ _ _ _ (by norm_num) (by rw [minSafeGap]; norm_num)
      (by rw [epsilon]; norm_num)]
    norm_num [toFixed]
  have s14 : generateFractionalIndex (some (499984741211 / 250000000000000 : ℚ)) (some (1 / 500))
      (fun _ => 1 / 2) 14 = (some (999984741211 / 500000000000000 : ℚ), 15) := by
    rw [gfi_jitter _ _ _ _ (by norm_num) (by rw [minSafeGap]; norm_num)
      (by rw [epsilon]; norm_num)]
    norm_num [toFixed]
  have s15 : generateFractionalIndex (some (999984741211 / 500000000000000 : ℚ)) (some (1 / 500))
      (fun _ => 1 / 2) 15 = (some (1999984741211 / 1000000000000000 : ℚ), 16) := by
    rw [gfi_jitter _ _ _ _ (by norm_num) (by rw [minSafeGap]; norm_num)
      (by rw [epsilon]; norm_num)]
    norm_num [toFixed]
  have s16 : generateFractionalIndex (some (1999984741211 / 1000000000000000 : ℚ)) (some (1 / 500))
      (fun _ => 1 / 2) 16 = (some (999996185303 / 500000000000000 : ℚ), 17) := by
    rw [gfi_jitter _ _ _ _ (by norm_num) (by rw [minSafeGap]; norm_num)
      (by rw [epsilon]; norm_num)]
    norm_num [toFixed]
  have s17 : generateFractionalIndex (some (999996185303 / 500000000000000 : ℚ)) (some (1 / 500))
      (fun _ => 1 / 2) 17 = (some (1999996185303 / 1000000000000000 : ℚ), 18) := by
    rw [gfi_jitter _ _ _ _ (by norm_num) (by rw [minSafeGap]; norm_num)
      (by rw [epsilon]; norm_num)]
    norm_num [toFixed]
  have s18 : generateFractionalIndex (some (1999996185303 / 1000000000000000 : ℚ)) (some (1 / 500))
      (fun _ => 1 / 2) 18 = (some (499999523163 / 250000000000000 : ℚ), 19) := by
    rw [gfi_jitter _ _ _ _ (by norm_num) (by rw [minSafeGap]; norm_num)
      (by rw [epsilon]; norm_num)]
    norm_num [toFixed]
  have s19 : generateFractionalIndex (some (499999523163 / 250000000000000 : ℚ)) (some (1 / 500))
      (fun _ => 1 / 2) 19 = (some (999999523163 / 500000000000000 : ℚ), 20) := by
    rw [gfi_jitter _ _ _ _ (by norm_num) (by rw [minSafeGap]; norm_num)
      (by rw [epsilon]; norm_num)]
    norm_num [toFixed]
  have s20 : generateFractionalIndex (some (999999523163 / 500000000000000 : ℚ)) (some (1 / 500))
      (fun _ => 1 / 2) 20 = (some (1999999523163 / 1000000000000000 : ℚ), 21) := by
    rw [gfi_jitter _ _ _ _ (by norm_num) (by rw [minSafeGap]; norm_num)
      (by rw [epsilon]; norm_num)]
    norm_num [toFixed]
  have s21 : generateFractionalIndex (some (1999999523163 / 1000000000000000 : ℚ)) (some (1 / 500))
      (fun _ => 1 / 2) 21 = (some (999999880791 / 500000000000000 : ℚ), 22) := by
    rw [gfi_jitter _ _ _ _ (by norm_num) (by rw [minSafeGap]; norm_num)
      (by rw [epsilon]; norm_num)]
    norm_num [toFixed]
  have s22 : generateFractionalIndex (some (999999880791 / 500000000000000 : ℚ)) (some (1 / 500))
      (fun _ => 1 / 2) 22 = (some (1999999880791 / 1000000000000000 : ℚ), 23) := by
    rw [gfi_jitter _ _ _ _ (by norm_num) (by rw [minSafeGap]; norm_num)
      (by rw [epsilon]; norm_num)]
    norm_num [toFixed]
  have s23 : generateFractionalIndex (some (1999999880791 / 1000000000000000 : ℚ)) (some (1 / 500))
      (fun _ => 1 / 2) 23 = (some (499999985099 / 250000000000000 : ℚ), 24) := by
    rw [gfi_jitter _ _ _ _ (by norm_num) (by rw [minSafeGap]; norm_num)
      (by rw [epsilon]; norm_num)]
    norm_num [toFixed]
  have s24 : generateFractionalIndex (some (499999985099 / 250000000000000 : ℚ)) (some (1 / 500))
      (fun _ => 1 / 2) 24 = (some (999999985099 / 500000000000000 : ℚ), 24) := by
    rw [gfi_tiny _ _ _ _ (by norm_num) (by rw [minSafeGap]; norm_num)]
    norm_num [toFixed]
  have s25 : generateFractionalIndex (some (999999985099 / 500000000000000 : ℚ)) (some (1 / 500))
      (fun _ => 1 / 2) 24 = (some (1999999985099 / 1000000000000000 : ℚ), 24) := by
    rw [gfi_tiny _ _ _ _ (by norm_num) (by rw [minSafeGap]; norm_num)]
    norm_num [toFixed]
  have s26 : generateFractionalIndex (some (1999999985099 / 1000000000000000 : ℚ)) (some (1 / 500))
      (fun _ => 1 / 2) 24 = (some (39999999851 / 20000000000000 : ℚ), 24) := by
    rw [gfi_tiny _ _ _ _ (by norm_num) (by rw [minSafeGap]; norm_num)]
    norm_num [toFixed]
  have s27 : generateFractionalIndex (some (39999999851 / 20000000000000 : ℚ)) (some (1 / 500))
      (fun _ => 1 / 2) 24 = (some (79999999851 / 40000000000000 : ℚ), 24) := by
    rw [gfi_tiny _ _ _ _ (by norm_num) (by rw [minSafeGap]; norm_num)]
    norm_num [toFixed]
  have s28 : generateFractionalIndex (some (79999999851 / 40000000000000 : ℚ)) (some (1 / 500))
      (fun _ => 1 / 2) 24 = (some (999999999069 / 500000000000000 : ℚ), 24) := by
    rw [gfi_tiny _ _ _ _ (by norm_num) (by rw [minSafeGap]; norm_num)]
    norm_num [toFixed]
  have s29 : generateFractionalIndex (some (999999999069 / 500000000000000 : ℚ)) (some (1 / 500))
      (fun _ => 1 / 2) 24 = (some (1999999999069 / 1000000000000000 : ℚ), 24) := by
    rw [gfi_tiny _ _ _ _ (by norm_num) (by rw [minSafeGap]; norm_num)]
    norm_num [toFixed]
  have s30 : generateFractionalIndex (some (1999999999069 / 1000000000000000 : ℚ)) (some (1 / 500))
      (fun _ => 1 / 2) 24 = (some (399999999907 / 200000000000000 : ℚ), 24) := by
    rw [gfi_tiny _ _ _ _ (by norm_num) (by rw [minSafeGap]; norm_num)]
    norm_num [toFixed]
  have s31 : generateFractionalIndex (some (399999999907 / 200000000000000 : ℚ)) (some (1 / 500))
      (fun _ => 1 / 2) 24 = (some (249999999971 / 125000000000000 : ℚ), 24) := by
    rw [gfi_tiny _ _ _ _ (by norm_num) (by rw [minSafeGap]; norm_num)]
    norm_num [toFixed]
  have s32 : generateFractionalIndex (some (249999999971 / 125000000000000 : ℚ)) (some (1 / 500))
      (fun _ => 1 / 2) 24 = (some (499999999971 / 250000000000000 : ℚ), 24) := by
    rw [gfi_tiny _ _ _ _ (by norm_num) (by rw [minSafeGap]; norm_num)]
    norm_num [toFixed]
  have s33 : generateFractionalIndex (some (499999999971 / 250000000000000 : ℚ)) (some (1 / 500))
      (fun _ => 1 / 2) 24 = (some (999999999971 / 500000000000000 : ℚ), 24) := by
    rw [gfi_tiny _ _ _ _ (by norm_num) (by rw [minSafeGap]; norm_num)]
    norm_num [toFixed]
  have s34 : generateFractionalIndex (some (999999999971 / 500000000000000 : ℚ)) (some (1 / 500))
      (fun _ => 1 / 2) 24 = (some (1999999999971 / 1000000000000000 : ℚ), 24) := by
    rw [gfi_tiny _ _ _ _ (by norm_num) (by rw [minSafeGap]; norm_num)]
    norm_num [toFixed]
  have s35 : generateFractionalIndex (some (1999999999971 / 1000000000000000 : ℚ)) (some (1 / 500))
      (fun _ => 1 / 2) 24 = (some (999999999993 / 500000000000000 : ℚ), 24) := by
    rw [gfi_tiny _ _ _ _ (by norm_num) (by rw [minSafeGap]; norm_num)]
    norm_num [toFixed]
  have s36 : generateFractionalIndex (some (999999999993 / 500000000000000 : ℚ)) (some (1 / 500))
      (fun _ => 1 / 2) 24 = (some (1999999999993 / 1000000000000000 : ℚ), 24) := by
    rw [gfi_tiny _ _ _ _ (by norm_num) (by rw [minSafeGap]; norm_num)]
    norm_num [toFixed]
  have s37 : generateFractionalIndex (some (1999999999993 / 1000000000000000 : ℚ)) (some (1 / 500))
      (fun _ => 1 / 2) 24 = (some (1999999999997 / 1000000000000000 : ℚ), 24) := by
    rw [gfi_tiny _ _ _ _ (by norm_num) (by rw [minSafeGap]; norm_num)]
    norm_num [toFixed]
  have s38 : generateFractionalIndex (some (1999999999997 / 1000000000000000 : ℚ)) (some (1 / 500))
      (fun _ => 1 / 2) 24 = (some (1999999999999 / 1000000000000000 : ℚ), 24) := by
    rw [gfi_tiny _ _ _ _ (by norm_num) (by rw [minSafeGap]; norm_num)]
    norm_num [toFixed]
  have s39 : generateFractionalIndex (some (1999999999999 / 1000000000000000 : ℚ)) (some (1 / 500))
      (fun _ => 1 / 2) 24 = (some (1 / 500 : ℚ), 24) := by
    rw [gfi_tiny _ _ _ _ (by norm_num) (by rw [minSafeGap]; norm_num)]
    norm_num [toFixed]
  have s40 : generateFractionalIndex (some (1 / 500 : ℚ)) (some (1 / 500))
      (fun _ => 1 / 2) 24 = (none, 24) :=
    gfi_invalid _ _ _ _ (by norm_num)
  have t40 : bulkLoop (some ((1:ℚ) / 500)) (fun _ => 1 / 2) 10
      (some (1 / 500 : ℚ)) 24 = (none, 24) := by
    rw [show (10:ℕ) = 9 + 1 from rfl, bulkLoop_succ, s40]
  have t39 : bulkLoop (some ((1:ℚ) / 500)) (fun _ => 1 / 2) 11
      (some (1999999999999 / 1000000000000000 : ℚ)) 24 = (none, 24) := by
    rw [show (11:ℕ) = 10 + 1 from rfl, bulkLoop_succ, s39]
    dsimp only
    rw [t40]
  have t38 : bulkLoop (some ((1:ℚ) / 500)) (fun _ => 1 / 2) 12
      (some (1999999999997 / 1000000000000000 : ℚ)) 24 = (none, 24) := by
    rw [show (12:ℕ) = 11 + 1 from rfl, bulkLoop_succ, s38]
    dsimp only
    rw [t39]
  have t37 : bulkLoop (some ((1:ℚ) / 500)) (fun _ => 1 / 2) 13
      (some (1999999999993 / 1000000000000000 : ℚ)) 24 = (none, 24) := by
    rw [show (13:ℕ) = 12 + 1 from rfl, bulkLoop_succ, s37]
    dsimp only
    rw [t38]
  have t36 : bulkLoop (some ((1:ℚ) / 500)) (fun _ => 1 / 2) 14
      (some (999999999993 / 500000000000000 : ℚ)) 24 = (none, 24) := by
    rw [show (14:ℕ) = 13 + 1 from rfl, bulkLoop_succ, s36]
    dsimp only
    rw [t37]
  have t35 : bulkLoop (some ((1:ℚ) / 500)) (fun _ => 1 / 2) 15
      (some (1999999999971 / 1000000000000000 : ℚ)) 24 = (none, 24) := by
    rw [show (15:ℕ) = 14 + 1 from rfl, bulkLoop_succ, s35]
    dsimp only
    rw [t36]
  have t34 : bulkLoop (some ((1:ℚ) / 500)) (fun _ => 1 / 2) 16
      (some (999999999971 / 500000000000000 : ℚ)) 24 = (none, 24) := by
    rw [show (16:ℕ) = 15 + 1 from rfl, bulkLoop_succ, s34]
    dsimp only
    rw [t35]
  have t33 : bulkLoop (some ((1:ℚ) / 500)) (fun _ => 1 / 2) 17
      (some (499999999971 / 250000000000000 : ℚ)) 24 = (none, 24) := by
    rw [show (17:ℕ) = 16 + 1 from rfl, bulkLoop_succ, s33]
    dsimp only
    rw [t34]
  have t32 : bulkLoop (some ((1:ℚ) / 500)) (fun _ => 1 / 2) 18
      (some (249999999971 / 125000000000000 : ℚ)) 24 = (none, 24) := by
    rw [show (18:ℕ) = 17 + 1 from rfl, bulkLoop_succ, s32]
    dsimp only
    rw [t33]
  have t31 : bulkLoop (some ((1:ℚ) / 500)) (fun _ => 1 / 2) 19
      (some (399999999907 / 200000000000000 : ℚ)) 24 = (none, 24) := by
    rw [show (19:ℕ) = 18 + 1 from rfl, bulkLoop_succ, s31]
    dsimp only
    rw [t32]
  have t30 : bulkLoop (some ((1:ℚ) / 500)) (fun _ => 1 / 2) 20
      (some (1999999999069 / 1000000000000000 : ℚ)) 24 = (none, 24) := by
    rw [show (20:ℕ) = 19 + 1 from rfl, bulkLoop_succ, s30]
    dsimp only
    rw [t31]
  have t29 : bulkLoop (some ((1:ℚ) / 500)) (fun _ => 1 / 2) 21
      (some (999999999069 / 500000000000000 : ℚ)) 24 = (none, 24) := by
    rw [show (21:ℕ) = 20 + 1 from rfl, bulkLoop_succ, s29]
    dsimp only
    rw [t30]
  have t28 : bulkLoop (some ((1:ℚ) / 500)) (fun _ => 1 / 2) 22
      (some (79999999851 / 40000000000000 : ℚ)) 24 = (none, 24) := by
    rw [show (22:ℕ) = 21 + 1 from rfl, bulkLoop_succ, s28]
    dsimp only
    rw [t29]
  have t27 : bulkLoop (some ((1:ℚ) / 500)) (fun _ => 1 / 2) 23
      (some (39999999851 / 20000000000000 : ℚ)) 24 = (none, 24) := by
    rw [show (23:ℕ) = 22 + 1 from rfl, bulkLoop_succ, s27]
    dsimp only
    rw [t28]
  have t26 : bulkLoop (some ((1:ℚ) / 500)) (fun _ => 1 / 2) 24
      (some (1999999985099 / 1000000000000000 : ℚ)) 24 = (none, 24) := by
    rw [show (24:ℕ) = 23 + 1 from rfl, bulkLoop_succ, s26]
    dsimp only
    rw [t27]
  have t25 : bulkLoop (some ((1:ℚ) / 500)) (fun _ => 1 / 2) 25
      (some (999999985099 / 500000000000000 : ℚ)) 24 = (none, 24) := by
    rw [show (25:ℕ) = 24 + 1 from rfl, bulkLoop_succ, s25]
    dsimp only
    rw [t26]
  have t24 : bulkLoop (some ((1:ℚ) / 500)) (fun _ => 1 / 2) 26
      (some (499999985099 / 250000000000000 : ℚ)) 24 = (none, 24) := by
    rw [show (26:ℕ) = 25 + 1 from rfl, bulkLoop_succ, s24]
    dsimp only
    rw [t25]
  have t23 : bulkLoop (some ((1:ℚ) / 500)) (fun _ => 1 / 2) 27
      (some (1999999880791 / 1000000000000000 : ℚ)) 23 = (none, 24) := by
    rw [show (27:ℕ) = 26 + 1 from rfl, bulkLoop_succ, s23]
    dsimp only
    rw [t24]
  have t22 : bulkLoop (some ((1:ℚ) / 500)) (fun _ => 1 / 2) 28
      (some (999999880791 / 500000000000000 : ℚ)) 22 = (none, 24) := by
    rw [show (28:ℕ) = 27 + 1 from rfl, bulkLoop_succ, s22]
    dsimp only
    rw [t23]
  have t21 : bulkLoop (some ((1:ℚ) / 500)) (fun _ => 1 / 2) 29
      (some (1999999523163 / 1000000000000000 : ℚ)) 21 = (none, 24) := by
    rw [show (29:ℕ) = 28 + 1 from rfl, bulkLoop_succ, s21]
    dsimp only
    rw [t22]
  have t20 : bulkLoop (some ((1:ℚ) / 500)) (fun _ => 1 / 2) 30
      (some (999999523163 / 500000000000000 : ℚ)) 20 = (none, 24) := by
    rw [show (30:ℕ) = 29 + 1 from rfl, bulkLoop_succ, s20]
    dsimp only
    rw [t21]
  have t19 : bulkLoop (some ((1:ℚ) / 500)) (fun _ => 1 / 2) 31
      (some (499999523163 / 250000000000000 : ℚ)) 19 = (none, 24) := by
    rw [show (31:ℕ) = 30 + 1 from rfl, bulkLoop_succ, s19]
    dsimp only
    rw [t20]
  have t18 : bulkLoop (some ((1:ℚ) / 500)) (fun _ => 1 / 2) 32
      (some (1999996185303 / 1000000000000000 : ℚ)) 18 = (none, 24) := by
    rw [show (32:ℕ) = 31 + 1 from rfl, bulkLoop_succ, s18]
    dsimp only
    rw [t19]
  have t17 : bulkLoop (some ((1:ℚ) / 500)) (fun _ => 1 / 2) 33
      (some (999996185303 / 500000000000000 : ℚ)) 17 = (none, 24) := by
    rw [show (33:ℕ) = 32 + 1 from rfl, bulkLoop_succ, s17]
    dsimp only
    rw [t18]
  have t16 : bulkLoop (some ((1:ℚ) / 500)) (fun _ => 1 / 2) 34
      (some (1999984741211 / 1000000000000000 : ℚ)) 16 = (none, 24) := by
    rw [show (34:ℕ) = 33 + 1 from rfl, bulkLoop_succ, s16]
    dsimp only
    rw [t17]
  have t15 : bulkLoop (some ((1:ℚ) / 500)) (fun _ => 1 / 2) 35
      (some (999984741211 / 500000000000000 : ℚ)) 15 = (none, 24) := by
    rw [show (35:ℕ) = 34 + 1 from rfl, bulkLoop_succ, s15]
    dsimp only
    rw [t16]
  have t14 : bulkLoop (some ((1:ℚ) / 500)) (fun _ => 1 / 2) 36
      (some (499984741211 / 250000000000000 : ℚ)) 14 = (none, 24) := by
    rw [show (36:ℕ) = 35 + 1 from rfl, bulkLoop_succ, s14]
    dsimp only
    rw [t15]
  have t13 : bulkLoop (some ((1:ℚ) / 500)) (fun _ => 1 / 2) 37
      (some (249984741211 / 125000000000000 : ℚ)) 13 = (none, 24) := by
    rw [show (37:ℕ) = 36 + 1 from rfl, bulkLoop_succ, s13]
    dsimp only
    rw [t14]
  have t12 : bulkLoop (some ((1:ℚ) / 500)) (fun _ => 1 / 2) 38
      (some (8191 / 4096000 : ℚ)) 12 = (none, 24) := by
    rw [show (38:ℕ) = 37 + 1 from rfl, bulkLoop_succ, s12]
    dsimp only
    rw [t13]
  have t11 : bulkLoop (some ((1:ℚ) / 500)) (fun _ => 1 / 2) 39
      (some (819 / 409600 : ℚ)) 11 = (none, 24) := by
    rw [show (39:ℕ) = 38 + 1 from rfl, bulkLoop_succ, s11]
    dsimp only
    rw [t12]
  have t10 : bulkLoop (some ((1:ℚ) / 500)) (fun _ => 1 / 2) 40
      (some (2047 / 1024000 : ℚ)) 10 = (none, 24) := by
    rw [show (40:ℕ) = 39 + 1 from rfl, bulkLoop_succ, s10]
    dsimp only
    rw [t11]
  have t9 : bulkLoop (some ((1:ℚ) / 500)) (fun _ => 1 / 2) 41
      (some (1023 / 512000 : ℚ)) 9 = (none, 24) := by
    rw [show (41:ℕ) = 40 + 1 from rfl, bulkLoop_succ, s9]
    dsimp only
    rw [t10]
  have t8 : bulkLoop (some ((1:ℚ) / 500)) (fun _ => 1 / 2) 42
      (some (511 / 256000 : ℚ)) 8 = (none, 24) := by
    rw [show (42:ℕ) = 41 + 1 from rfl, bulkLoop_succ, s8]
    dsimp only
    rw [t9]
  have t7 : bulkLoop (some ((1:ℚ) / 500)) (fun _ => 1 / 2) 43
      (some (51 / 25600 : ℚ)) 7 = (none, 24) := by
    rw [show (43:ℕ) = 42 + 1 from rfl, bulkLoop_succ, s7]
    dsimp only
    rw [t8]
  have t6 : bulkLoop (some ((1:ℚ) / 500)) (fun _ => 1 / 2) 44
      (some (127 / 64000 : ℚ)) 6 = (none, 24) := by
    rw [show (44:ℕ) = 43 + 1 from rfl, bulkLoop_succ, s6]
    dsimp only
    rw [t7]
  have t5 : bulkLoop (some ((1:ℚ) / 500)) (fun _ => 1 / 2) 45
      (some (63 / 32000 : ℚ)) 5 = (none, 24) := by
    rw [show (45:ℕ) = 44 + 1 from rfl, bulkLoop_succ, s5]
    dsimp only
    rw [t6]
  have t4 : bulkLoop (some ((1:ℚ) / 500)) (fun _ => 1 / 2) 46
      (some (31 / 16000 : ℚ)) 4 = (none, 24) := by
    rw [show (46:ℕ) = 45 + 1 from rfl, bulkLoop_succ, s4]
    dsimp only
    rw [t5]
  have t3 : bulkLoop (some ((1:ℚ) / 500)) (fun _ => 1 / 2) 47
      (some (3 / 1600 : ℚ)) 3 = (none, 24) := by
    rw [show (47:ℕ) = 46 + 1 from rfl, bulkLoop_succ, s3]
    dsimp only
    rw [t4]
  have t2 : bulkLoop (some ((1:ℚ) / 500)) (fun _ => 1 / 2) 48
      (some (7 / 4000 : ℚ)) 2 = (none, 24) := by
    rw [show (48:ℕ) = 47 + 1 from rfl, bulkLoop_succ, s2]
    dsimp only
    rw [t3]
  have t1 : bulkLoop (some ((1:ℚ) / 500)) (fun _ => 1 / 2) 49
      (some (3 / 2000 : ℚ)) 1 = (none, 24) := by
    rw [show (49:ℕ) = 48 + 1 from rfl, bulkLoop_succ, s1]
    dsimp only
    rw [t2]
  have t0 : bulkLoop (some ((1:ℚ) / 500)) (fun _ => 1 / 2) 50
      (some (1 / 1000 : ℚ)) 0 = (none, 24) := by
    rw [show (50:ℕ) = 49 + 1 from rfl, bulkLoop_succ, s0]
    dsimp only
    rw [t1]
  constructor
  · rw [t0]
  · norm_num

end FracIndexes
